import Mathlib

/-!
Verification of the tactical-AI core of the football simulation.

The development shallowly embeds the canonical source files
(`src/entities/PlayerStates.js`, `src/DefenseSystem.js`, `src/DecisionSystem.js`
(first variant), `src/Player.js`, `src/systems/MovementSystem.js`, the
`ZoneSystem`, `GameConfig` and `MathHelpers` modules) into Lean.  JavaScript
numbers are modelled as real numbers; `Math.sqrt` as `Real.sqrt`;
`Math.atan2(dy, dx)` as `Complex.arg ⟨dx, dy⟩`; JS object reference equality
(`===`) between players as equality of a numeric identity field `idx`
(player objects are distinct heap objects, and every roster the game builds
gives players pairwise distinct indices); `null` as `Option.none`.
`Date.now()` and the gaussian noise sample drawn by `calculateReactionTime`
are passed in as explicit parameters, since they are the only ambient inputs
of the decision code.
-/

namespace FT

noncomputable section

/-- A 2D point or vector, as the `{x, y}` objects of the source. -/
structure Vec2 where
  x : ℝ
  y : ℝ

/-- `MathHelpers.distance(x1, y1, x2, y2)`. -/
def distance (x1 y1 x2 y2 : ℝ) : ℝ :=
  let dx := x2 - x1
  let dy := y2 - y1
  Real.sqrt (dx * dx + dy * dy)

/-- `MathHelpers.angleBetween(x1, y1, x2, y2)` = `Math.atan2(y2 - y1, x2 - x1)`,
modelled by the argument of the complex number `(x2 - x1) + (y2 - y1) i`,
which has the atan2 range (-π, π] and sends the zero vector to 0. -/
def angleBetween (x1 y1 x2 y2 : ℝ) : ℝ :=
  Complex.arg ⟨x2 - x1, y2 - y1⟩

/-- `MathHelpers.clamp(value, min, max)` = `Math.max(min, Math.min(max, value))`. -/
def clamp (value lo hi : ℝ) : ℝ :=
  Max.max lo (Min.min hi value)

/-- `MathHelpers.lerp(start, end, t)` (the JS parameter `end` is a Lean keyword,
renamed `stop`). -/
def lerp (start stop t : ℝ) : ℝ :=
  start + (stop - start) * t

/-- `MathHelpers.pointInRect(px, py, rx, ry, rw, rh)`. -/
def pointInRect (px py rx ry rw rh : ℝ) : Bool :=
  decide (px ≥ rx ∧ px ≤ rx + rw ∧ py ≥ ry ∧ py ≤ ry + rh)

/-- Chaser argument of `MathHelpers.calculateInterception`: `{x, y, speed}`. -/
structure Chaser where
  x : ℝ
  y : ℝ
  speed : ℝ

/-- Target argument of `MathHelpers.calculateInterception`: `{x, y, vx, vy}`. -/
structure MovingTarget where
  x : ℝ
  y : ℝ
  vx : ℝ
  vy : ℝ

/-- `MathHelpers.calculateInterception(chaser, target)`. -/
def calculateInterception (chaser : Chaser) (target : MovingTarget) : Vec2 :=
  let dx := target.x - chaser.x
  let dy := target.y - chaser.y
  let dist := Real.sqrt (dx * dx + dy * dy)
  let targetSpeed := Real.sqrt (target.vx * target.vx + target.vy * target.vy)
  if targetSpeed = 0 then
    ⟨target.x, target.y⟩
  else
    let timeToIntercept := dist / (chaser.speed + targetSpeed)
    ⟨target.x + target.vx * timeToIntercept, target.y + target.vy * timeToIntercept⟩

/-- `MathHelpers.closestPointOnLine(px, py, x1, y1, x2, y2)`. -/
def closestPointOnLine (px py x1 y1 x2 y2 : ℝ) : Vec2 :=
  let dx := x2 - x1
  let dy := y2 - y1
  let lengthSquared := dx * dx + dy * dy
  if lengthSquared = 0 then
    ⟨x1, y1⟩
  else
    let t := clamp (((px - x1) * dx + (py - y1) * dy) / lengthSquared) 0 1
    ⟨x1 + t * dx, y1 + t * dy⟩

/-- The `timeForPlayer` quantity computed inside
`MathHelpers.calculateInterceptProbability`: the agent's time to reach the
closest point of the passing line (`distToLine / player.stats.speed`). -/
def timeForPlayer (px py pspeed : ℝ) (ballPos passTarget : Vec2) : ℝ :=
  let closestPoint := closestPointOnLine px py ballPos.x ballPos.y passTarget.x passTarget.y
  distance px py closestPoint.x closestPoint.y / pspeed

/-- The `timeForBall` quantity computed inside
`MathHelpers.calculateInterceptProbability`: the ball's time to reach the
closest point of the passing line (`distBallToPoint / ballSpeed`). -/
def timeForBall (px py : ℝ) (ballPos passTarget : Vec2) (ballSpeed : ℝ) : ℝ :=
  let closestPoint := closestPointOnLine px py ballPos.x ballPos.y passTarget.x passTarget.y
  distance ballPos.x ballPos.y closestPoint.x closestPoint.y / ballSpeed

/-- `MathHelpers.calculateInterceptProbability(player, ballPos, passTarget,
ballSpeed)`; the player argument is passed as its used fields `player.x`,
`player.y`, `player.stats.speed`. -/
def calculateInterceptProbability (px py pspeed : ℝ) (ballPos passTarget : Vec2)
    (ballSpeed : ℝ) : ℝ :=
  let tPlayer := timeForPlayer px py pspeed ballPos passTarget
  let tBall := timeForBall px py ballPos passTarget ballSpeed
  if tPlayer ≥ tBall then 0
  else
    let timeDiff := tBall - tPlayer
    Min.min 1 (timeDiff / 0.5)

/-! `GameConfig` constants (the canonical `GameConfig.js`). -/

/-- `GameConfig.AI.DECISION_INTERVAL` (ms); also the value every player's
`decisionInterval` field is initialised with in `Player`'s constructor. -/
def DECISION_INTERVAL : ℝ := 150

/-- `GameConfig.AI.REACTION_TIME_MIN` (ms). -/
def REACTION_TIME_MIN : ℝ := 200

/-- `GameConfig.AI.REACTION_TIME_MAX` (ms). -/
def REACTION_TIME_MAX : ℝ := 400

/-- `GameConfig.AI.PRESSING_DISTANCE`. -/
def PRESSING_DISTANCE : ℝ := 250

/-- `GameConfig.AI.COVERING_DISTANCE`. -/
def COVERING_DISTANCE : ℝ := 180

/-- `GameConfig.AI.INTERCEPT_DISTANCE`. -/
def INTERCEPT_DISTANCE : ℝ := 200

/-- `GameConfig.AI.STAMINA_CRITICAL`. -/
def STAMINA_CRITICAL : ℝ := 20

/-- `GameConfig.AI.STAMINA_LOW`. -/
def STAMINA_LOW : ℝ := 40

/-- `GameConfig.AI.STAMINA_RECOVERY_RATE` (per second). -/
def STAMINA_RECOVERY_RATE : ℝ := 0.3

/-- `GameConfig.TIMING.KICK_COOLDOWN` (ms). -/
def KICK_COOLDOWN : ℝ := 300

/-- `GameConfig.TIMING.ABILITY_DURATION` (ms). -/
def ABILITY_DURATION : ℝ := 7000

/-- `GameConfig.FIELD.ZONES.MIDFIELD_START`. -/
def MIDFIELD_START : ℝ := 400

/-- `GameConfig.FIELD.ZONES.MIDFIELD_END`. -/
def MIDFIELD_END : ℝ := 800

/-- `GameConfig.FIELD.X`. -/
def FIELD_X : ℝ := 50

/-- `GameConfig.FIELD.Y`. -/
def FIELD_Y : ℝ := 100

/-- `GameConfig.FIELD.WIDTH`. -/
def FIELD_WIDTH : ℝ := 1100

/-- `GameConfig.FIELD.HEIGHT`. -/
def FIELD_HEIGHT : ℝ := 600

/-- `GameConfig.FIELD.BOUNDS.minY`. -/
def BOUNDS_minY : ℝ := 120

/-- `GameConfig.FIELD.BOUNDS.maxY`. -/
def BOUNDS_maxY : ℝ := 680

/-! The data model: players, ball, context. -/

/-- The six FSM state names of `PlayerStates`. -/
inductive PState
  | IDLE
  | DEFENSIVE
  | PRESSING
  | COVERING
  | INTERCEPTING
  | RECOVERING
deriving DecidableEq, Repr

/-- The role archetypes of `GameConfig.ROLES`. -/
inductive Role
  | DEFENDER
  | SPEED
  | SHOOTER
  | DRIBBLER
deriving DecidableEq, Repr

/-- The `specialAbility` field values used by `Player` (`'none'`,
`'superSpeed'`, `'superDribble'`). -/
inductive Ability
  | noAbility
  | superSpeed
  | superDribble
deriving DecidableEq, Repr

/-- The four tactical zone labels of `ZoneSystem.createZones`. -/
inductive ZoneName
  | DEFENSIVE
  | MID_DEFENSIVE
  | MID_ATTACKING
  | ATTACKING
deriving DecidableEq, Repr

/-- A zone rectangle of `ZoneSystem.createZones`. -/
structure Zone where
  x : ℝ
  y : ℝ
  width : ℝ
  height : ℝ
  priority : ℝ

/-- The stats record built in `Player`'s constructor. -/
structure PStats where
  speed : ℝ
  shootPower : ℝ
  stamina : ℝ
  dribble : ℝ
  defense : ℝ
  reaction : ℝ
  aggression : ℝ

/-- The mutable runtime fields of a `Player` that the tactical core reads and
writes.  `idx` is the identity used to model JS reference equality (`===`)
between player objects.  Visual-only fields are omitted. -/
structure Player where
  idx : ℕ
  team : ℕ
  role : Role
  x : ℝ
  y : ℝ
  basePosition : Vec2
  stats : PStats
  staminaCurrent : ℝ
  state : PState
  previousState : Option PState
  zone : Option ZoneName
  reactionTimer : ℝ
  lastDecisionTime : ℝ
  kickCooldown : ℝ
  abilityDuration : ℝ
  abilityActive : Bool
  specialAbility : Ability
  pressingStartTime : Option ℝ
  isControlled : Bool

/-- The ball fields read and written by the core: position, physics-body
velocity (`ball.body.velocity` / `ball.setVelocity`), and last-toucher
stamps. -/
structure Ball where
  x : ℝ
  y : ℝ
  vx : ℝ
  vy : ℝ
  lastTouchedBy : Option ℕ
  lastTouchTeam : Option ℕ

/-- The context object built by `DecisionSystem.update` for each player:
`{ ball, teammates, opponents, allPlayers, delta }` with
`teammates = aiPlayers.filter(p => p !== player)`. -/
structure Ctx where
  ball : Ball
  teammates : List Player
  opponents : List Player
  allPlayers : List Player
  delta : ℝ

/-! `ZoneSystem` (canonical variant). -/

/-- `ZoneSystem.createZones().team1`: four equal-width vertical bands,
`zoneWidth = FIELD.WIDTH / 4`. -/
def zonesTeam1 : ZoneName → Zone
  | ZoneName.DEFENSIVE => ⟨FIELD_X, FIELD_Y, FIELD_WIDTH / 4, FIELD_HEIGHT, 1.5⟩
  | ZoneName.MID_DEFENSIVE => ⟨FIELD_X + FIELD_WIDTH / 4, FIELD_Y, FIELD_WIDTH / 4, FIELD_HEIGHT, 1.2⟩
  | ZoneName.MID_ATTACKING => ⟨FIELD_X + FIELD_WIDTH / 4 * 2, FIELD_Y, FIELD_WIDTH / 4, FIELD_HEIGHT, 1.0⟩
  | ZoneName.ATTACKING => ⟨FIELD_X + FIELD_WIDTH / 4 * 3, FIELD_Y, FIELD_WIDTH / 4, FIELD_HEIGHT, 0.8⟩

/-- `ZoneSystem.createZones().team2`: the mirrored table. -/
def zonesTeam2 : ZoneName → Zone
  | ZoneName.ATTACKING => ⟨FIELD_X, FIELD_Y, FIELD_WIDTH / 4, FIELD_HEIGHT, 0.8⟩
  | ZoneName.MID_ATTACKING => ⟨FIELD_X + FIELD_WIDTH / 4, FIELD_Y, FIELD_WIDTH / 4, FIELD_HEIGHT, 1.0⟩
  | ZoneName.MID_DEFENSIVE => ⟨FIELD_X + FIELD_WIDTH / 4 * 2, FIELD_Y, FIELD_WIDTH / 4, FIELD_HEIGHT, 1.2⟩
  | ZoneName.DEFENSIVE => ⟨FIELD_X + FIELD_WIDTH / 4 * 3, FIELD_Y, FIELD_WIDTH / 4, FIELD_HEIGHT, 1.5⟩

/-- `ZoneSystem.getZone(team, zoneName)` for the two teams the game creates
(`this.zones[`team${team}`][zoneName]`; the source reads team 1's table for
team 1 and team 2's table otherwise). -/
def getZone (team : ℕ) (zoneName : ZoneName) : Zone :=
  if team = 1 then zonesTeam1 zoneName else zonesTeam2 zoneName

/-- One iteration of the teammate-repulsion loop in
`ZoneSystem.getOptimalZonePosition`: pushes the running target away from a
teammate closer than 60 units.  The `teammate === player` early return of the
source is modelled by the `idx` comparison. -/
def zoneRepulsionStep (player : Player) (t : Vec2) (teammate : Player) : Vec2 :=
  if teammate.idx = player.idx then t
  else
    let dist := distance t.x t.y teammate.x teammate.y
    if dist < 60 then
      let angle := angleBetween teammate.x teammate.y t.x t.y
      ⟨t.x + Real.cos angle * (60 - dist), t.y + Real.sin angle * (60 - dist)⟩
    else t

/-- `ZoneSystem.getOptimalZonePosition(player, ball, teammates, opponents)`.
The source returns `player.basePosition` when the zone lookup fails (no
assigned zone label); the `opponents` argument is unused by the source body. -/
def getOptimalZonePosition (player : Player) (ball : Ball) (teammates : List Player) : Vec2 :=
  match player.zone with
  | none => player.basePosition
  | some zoneName =>
    let zone := getZone player.team zoneName
    let targetX := zone.x + zone.width / 2
    let targetY := zone.y + zone.height / 2
    let ballInZone := pointInRect ball.x ball.y zone.x zone.y zone.width zone.height
    let tgt : Vec2 :=
      if ballInZone then
        ⟨lerp targetX ball.x 0.6, lerp targetY ball.y 0.6⟩
      else
        let tx :=
          if ball.x < zone.x then zone.x + zone.width * 0.25
          else if ball.x > zone.x + zone.width then zone.x + zone.width * 0.75
          else targetX
        let verticalOffset := (ball.y - 400) * 0.3
        let ty := clamp (targetY + verticalOffset) (zone.y + 50) (zone.y + zone.height - 50)
        ⟨tx, ty⟩
    let tgt := teammates.foldl (zoneRepulsionStep player) tgt
    ⟨clamp tgt.x (zone.x + 20) (zone.x + zone.width - 20),
     clamp tgt.y (zone.y + 20) (zone.y + zone.height - 20)⟩

/-! `PlayerStates` (the FSM of `src/entities/PlayerStates.js`). -/

/-- `PlayerStates.IDLE.getClosestToBall(players, ball)`: `forEach` with
`minDist` starting at `Infinity` and a strict `<` update, so the first player
of the list wins ties; the `Infinity` sentinel is modelled by the `Option`
accumulator (every real distance is below `Infinity`). -/
def getClosestToBall (players : List Player) (ball : Ball) : Option Player :=
  players.foldl
    (fun closest p =>
      match closest with
      | none => some p
      | some c =>
        if distance p.x p.y ball.x ball.y < distance c.x c.y ball.x ball.y then some p
        else some c)
    none

/-- `closest === player` for the result of `getClosestToBall` (JS reference
equality against `null` or a player object). -/
def closestIs (closest : Option Player) (player : Player) : Bool :=
  match closest with
  | none => false
  | some c => decide (c.idx = player.idx)

/-- `PlayerStates.IDLE.shouldPress(player, context)`. -/
def shouldPress (player : Player) (context : Ctx) : Bool :=
  let alreadyPressing := context.teammates.any fun t => decide (t.state = PState.PRESSING)
  if alreadyPressing then false
  else closestIs (getClosestToBall context.teammates context.ball) player

/-- `PlayerStates.IDLE.shouldCover(player, context)`. -/
def shouldCover (player : Player) (context : Ctx) : Bool :=
  match context.teammates.find? (fun t => decide (t.state = PState.PRESSING)) with
  | none => false
  | some pressingTeammate =>
    decide (distance player.x player.y pressingTeammate.x pressingTeammate.y < COVERING_DISTANCE)

/-- The ball speed `Math.sqrt(ball.body.velocity.x ** 2 + ball.body.velocity.y ** 2)`. -/
def ballSpeedOf (ball : Ball) : ℝ :=
  Real.sqrt (ball.vx ^ 2 + ball.vy ^ 2)

/-- `PlayerStates.IDLE.shouldIntercept(player, context)`. -/
def shouldIntercept (player : Player) (context : Ctx) : Bool :=
  let ball := context.ball
  let ballSpeed := ballSpeedOf ball
  if ballSpeed < 50 then false
  else
    decide (calculateInterceptProbability player.x player.y player.stats.speed
      ⟨ball.x, ball.y⟩ ⟨ball.x + ball.vx, ball.y + ball.vy⟩ ballSpeed > 0.6)

/-- `PlayerStates.IDLE.isInDefensiveMode(player, context)`. -/
def isInDefensiveMode (player : Player) (context : Ctx) : Bool :=
  if player.team = 1 then decide (context.ball.x < MIDFIELD_START)
  else decide (context.ball.x > MIDFIELD_END)

/-- `PlayerStates.IDLE.shouldTransition(player, context)`. -/
def idleShouldTransition (player : Player) (context : Ctx) : Option PState :=
  if player.staminaCurrent < STAMINA_CRITICAL then some PState.RECOVERING
  else
    let distToBall := distance player.x player.y context.ball.x context.ball.y
    if decide (distToBall < PRESSING_DISTANCE) && shouldPress player context then
      some PState.PRESSING
    else if shouldCover player context then some PState.COVERING
    else if shouldIntercept player context then some PState.INTERCEPTING
    else if isInDefensiveMode player context then some PState.DEFENSIVE
    else none

/-- `PlayerStates.DEFENSIVE.shouldTransition(player, context)`.  The source's
nested `if (distToBall < PRESSING_DISTANCE) { if (closestToBall === player)
return 'PRESSING'; }` falls through to the later checks in every other case,
which the flattened conjunction reproduces. -/
def defensiveShouldTransition (player : Player) (context : Ctx) : Option PState :=
  if player.staminaCurrent < STAMINA_CRITICAL then some PState.RECOVERING
  else
    let distToBall := distance player.x player.y context.ball.x context.ball.y
    if decide (distToBall < PRESSING_DISTANCE) &&
        closestIs (getClosestToBall context.teammates context.ball) player then
      some PState.PRESSING
    else if shouldIntercept player context then some PState.INTERCEPTING
    else if !isInDefensiveMode player context then some PState.IDLE
    else none

/-- `PlayerStates.PRESSING.shouldTransition(player, context)`; `Date.now()` is
the explicit `now` parameter. -/
def pressingShouldTransition (player : Player) (context : Ctx) (now : ℝ) : Option PState :=
  if player.staminaCurrent < STAMINA_CRITICAL then some PState.RECOVERING
  else
    let distToBall := distance player.x player.y context.ball.x context.ball.y
    if distToBall > PRESSING_DISTANCE * 1.5 then some PState.DEFENSIVE
    else if !closestIs (getClosestToBall context.teammates context.ball) player &&
        decide (distToBall > 80) then
      some PState.DEFENSIVE
    else
      match player.pressingStartTime with
      | some start => if now - start > 5000 then some PState.DEFENSIVE else none
      | none => none

/-- `PlayerStates.COVERING.shouldTransition(player, context)`. -/
def coveringShouldTransition (player : Player) (context : Ctx) : Option PState :=
  if player.staminaCurrent < STAMINA_CRITICAL then some PState.RECOVERING
  else
    match context.teammates.find? (fun t => decide (t.state = PState.PRESSING)) with
    | none => some PState.DEFENSIVE
    | some _ =>
      if closestIs (getClosestToBall context.teammates context.ball) player &&
          decide (distance player.x player.y context.ball.x context.ball.y < PRESSING_DISTANCE) then
        some PState.PRESSING
      else none

/-- `PlayerStates.INTERCEPTING.shouldTransition(player, context)`. -/
def interceptingShouldTransition (player : Player) (context : Ctx) : Option PState :=
  if player.staminaCurrent < STAMINA_CRITICAL then some PState.RECOVERING
  else
    let ballSpeed := ballSpeedOf context.ball
    if ballSpeed < 50 then some PState.PRESSING
    else if distance player.x player.y context.ball.x context.ball.y >
        INTERCEPT_DISTANCE * 1.5 then
      some PState.DEFENSIVE
    else none

/-- `PlayerStates.RECOVERING.shouldTransition(player, context)`. -/
def recoveringShouldTransition (player : Player) : Option PState :=
  if player.staminaCurrent > STAMINA_LOW then some PState.IDLE
  else none

/-- Dispatch of `PlayerStates[state].shouldTransition` over the six states
(the dynamic property lookup of `DecisionSystem.updatePlayer`). -/
def shouldTransition (s : PState) (player : Player) (context : Ctx) (now : ℝ) : Option PState :=
  match s with
  | PState.IDLE => idleShouldTransition player context
  | PState.DEFENSIVE => defensiveShouldTransition player context
  | PState.PRESSING => pressingShouldTransition player context now
  | PState.COVERING => coveringShouldTransition player context
  | PState.INTERCEPTING => interceptingShouldTransition player context
  | PState.RECOVERING => recoveringShouldTransition player

/-- The state the agent is in after a transition check: the returned state if
the check returned one, otherwise the unchanged current state (`null` means
"stay"). -/
def transitionResult (s : PState) (player : Player) (context : Ctx) (now : ℝ) : PState :=
  match shouldTransition s player context now with
  | some next => next
  | none => s

/-- The stamina regeneration performed by `PlayerStates.IDLE.update`:
`staminaCurrent = Math.min(stats.stamina, staminaCurrent +
STAMINA_RECOVERY_RATE * (delta / 1000))`. -/
def idleUpdateStamina (player : Player) (delta : ℝ) : ℝ :=
  Min.min player.stats.stamina
    (player.staminaCurrent + STAMINA_RECOVERY_RATE * (delta / 1000))

/-- The stamina drain performed by `PlayerStates.PRESSING.update`:
`staminaCurrent = Math.max(0, staminaCurrent - 0.05 * (delta / 1000) *
stats.stamina)`. -/
def pressingUpdateStamina (player : Player) (delta : ℝ) : ℝ :=
  Max.max 0 (player.staminaCurrent - 0.05 * (delta / 1000) * player.stats.stamina)

/-- The stamina regeneration performed by `PlayerStates.RECOVERING.update`:
recovery at twice the normal rate. -/
def recoveringUpdateStamina (player : Player) (delta : ℝ) : ℝ :=
  Min.min player.stats.stamina
    (player.staminaCurrent + STAMINA_RECOVERY_RATE * 2 * (delta / 1000))

/-! `MovementSystem` and `Player` operations. -/

/-- `MovementSystem.updateStamina(player, delta)`; `vx, vy` are the physics
body's current velocity (`player.sprite.body.velocity`).  Returns the new
`staminaCurrent`. -/
def updateStamina (player : Player) (delta vx vy : ℝ) : ℝ :=
  let speed := Real.sqrt (vx ^ 2 + vy ^ 2)
  let deltaSeconds := delta / 1000
  if speed > 20 then
    let drainRate : ℝ := 0.01
    let drainRate :=
      if player.state = PState.PRESSING then drainRate * 2.0
      else if player.state = PState.INTERCEPTING then drainRate * 1.5
      else drainRate
    let drainRate :=
      match player.role with
      | Role.SPEED => drainRate * 0.8
      | Role.DEFENDER => drainRate * 1.2
      | _ => drainRate
    Max.max 0 (player.staminaCurrent - drainRate * deltaSeconds * player.stats.stamina)
  else
    let recoveryRate := STAMINA_RECOVERY_RATE
    let recoveryRate :=
      if player.state = PState.RECOVERING then recoveryRate * 2 else recoveryRate
    Min.min player.stats.stamina
      (player.staminaCurrent + recoveryRate * deltaSeconds * player.stats.stamina)

/-- Result of `MovementSystem.dash`: the returned success flag and the
player's mutated stamina and physics-body velocity. -/
structure DashResult where
  success : Bool
  staminaCurrent : ℝ
  vx : ℝ
  vy : ℝ

/-- `MovementSystem.dash(player, angle, power)`: early-returns `false` (no
mutation) when stamina is below 20, otherwise adds a `300 * power` impulse
along `angle` to the body velocity and spends 15 stamina.  `vx, vy` are the
body's current velocity (`player.sprite.body.velocity`); visual feedback is
omitted. -/
def dash (player : Player) (angle power vx vy : ℝ) : DashResult :=
  if player.staminaCurrent < 20 then ⟨false, player.staminaCurrent, vx, vy⟩
  else
    let dashSpeed := 300 * power
    ⟨true, player.staminaCurrent - 15,
     vx + Real.cos angle * dashSpeed, vy + Real.sin angle * dashSpeed⟩

/-- `Player.activateAbility()`: early-returns (no mutation) unless an ability
exists, is not already running, and stamina is at least 40; otherwise starts
the ability and spends 40 stamina. -/
def activateAbility (player : Player) : Player :=
  if player.specialAbility = Ability.noAbility ∨ player.abilityDuration > 0 then player
  else if player.staminaCurrent < 40 then player
  else
    { player with
      abilityDuration := ABILITY_DURATION
      staminaCurrent := player.staminaCurrent - 40 }

/-- The timer updates at the top of `Player.update(delta, context)`:
reaction timer, kick cooldown and ability countdown (position/visual syncing
is omitted). -/
def playerTimersUpdate (player : Player) (delta : ℝ) : Player :=
  let player :=
    if player.reactionTimer > 0 then
      { player with reactionTimer := player.reactionTimer - delta }
    else player
  let player :=
    if player.kickCooldown > 0 then
      { player with kickCooldown := player.kickCooldown - delta }
    else player
  if player.abilityDuration > 0 then
    { player with abilityDuration := player.abilityDuration - delta, abilityActive := true }
  else
    { player with abilityActive := false }

/-- The result of `Player.kick(ball, targetX, targetY)`: the returned success
flag together with the (possibly mutated) kicker and ball. -/
structure KickResult where
  success : Bool
  player : Player
  ball : Ball

/-- `Player.kick(ball, targetX, targetY)`: fails (returning `false` and
mutating nothing) when the kick cooldown has not elapsed or the ball is more
than 40 units away; otherwise sets the ball velocity toward the target,
stamps the last toucher, and starts the cooldown. -/
def kick (player : Player) (ball : Ball) (targetX targetY : ℝ) : KickResult :=
  if player.kickCooldown > 0 then ⟨false, player, ball⟩
  else
    let distToBall := distance player.x player.y ball.x ball.y
    if distToBall > 40 then ⟨false, player, ball⟩
    else
      let angle := angleBetween player.x player.y targetX targetY
      let power := player.stats.shootPower * 3
      ⟨true,
       { player with kickCooldown := KICK_COOLDOWN },
       { ball with
          vx := Real.cos angle * power
          vy := Real.sin angle * power
          lastTouchedBy := some player.idx
          lastTouchTeam := some player.team }⟩

/-! `DecisionSystem` (first, canonical variant of `src/DecisionSystem.js`). -/

/-- `DecisionSystem.calculateReactionTime(player)`.  `noise` is the
`MathHelpers.randomGaussian(0, 0.1)` sample, passed in explicitly. -/
def calculateReactionTime (player : Player) (noise : ℝ) : ℝ :=
  let baseReaction := REACTION_TIME_MIN
  let maxReaction := REACTION_TIME_MAX
  let reactionFactor := 1 - player.stats.reaction / 100
  let staminaFactor := 1 - player.staminaCurrent / player.stats.stamina
  let totalFactor := (reactionFactor + staminaFactor * 0.5) / 1.5
  let finalFactor := clamp (totalFactor + noise) 0 1
  lerp baseReaction maxReaction finalFactor

/-- `DecisionSystem.isUrgentState(state)`. -/
def isUrgentState (state : PState) : Bool :=
  decide (state = PState.INTERCEPTING) || decide (state = PState.RECOVERING)

/-- `Player.setState(newState, context)` restricted to the FSM bookkeeping
fields: early-returns when the state is unchanged, otherwise runs the old
state's `exit` hook (`PRESSING.exit` clears `pressingStartTime`), records the
previous state, installs the new state, and runs the new state's `enter` hook
(`PRESSING.enter` stamps `pressingStartTime = Date.now()`; `IDLE.enter` clears
only the visual `currentTarget`).  Visual feedback is omitted. -/
def setState (player : Player) (newState : PState) (now : ℝ) : Player :=
  if player.state = newState then player
  else
    let player :=
      if player.state = PState.PRESSING then { player with pressingStartTime := none }
      else player
    let player := { player with previousState := some player.state, state := newState }
    if newState = PState.PRESSING then { player with pressingStartTime := some now }
    else player

/-- The decision inputs of one `DecisionSystem.updatePlayer` call that come
from the ambient environment: `Date.now()` and the gaussian sample drawn by
`calculateReactionTime`. -/
structure DecisionTick where
  now : ℝ
  noise : ℝ

/-- The FSM-state/timer evolution of `DecisionSystem.updatePlayer(player,
context)`: skip when within the decision interval or while the reaction timer
runs; otherwise stamp the decision time, query `shouldTransition`, arm the
reaction timer, and apply the transition only when the delay is under 100 ms
or the target state is urgent.  `executeState` (the velocity output and the
stamina side effects of the state `update` methods, modelled separately
above) writes none of the fields this function reads or writes. -/
def updatePlayerState (player : Player) (context : Ctx) (tick : DecisionTick) : Player :=
  if tick.now - player.lastDecisionTime < DECISION_INTERVAL then player
  else if player.reactionTimer > 0 then player
  else
    let player := { player with lastDecisionTime := tick.now }
    match shouldTransition player.state player context tick.now with
    | some newState =>
      let reactionTime := calculateReactionTime player tick.noise
      let player := { player with reactionTimer := reactionTime }
      if decide (reactionTime < 100) || isUrgentState newState then
        setState player newState tick.now
      else player
    | none => player

/-- The `aiPlayers.forEach(player => this.updatePlayer(player, {...}))` loop
of `DecisionSystem.update`, which runs sequentially over the shared roster:
each player decides against a context whose `teammates` are all other roster
members, the earlier ones already updated this tick.  `processed` holds the
already-updated prefix (in order), `pending` the rest. -/
def runDecisions (ball : Ball) (opponents : List Player) (tick : DecisionTick) (delta : ℝ) :
    List Player → List Player → List Player
  | processed, [] => processed
  | processed, p :: pending =>
    let context : Ctx :=
      { ball := ball
        teammates := processed ++ pending
        opponents := opponents
        allPlayers := processed ++ p :: pending
        delta := delta }
    runDecisions ball opponents tick delta
      (processed ++ [updatePlayerState p context tick]) pending

/-! `DefenseSystem` (the canonical `src/DefenseSystem.js`). -/

/-- `p === q` against a possibly-null player reference
(`p === this.pressingPlayer` and the like). -/
def sameAs (p : Player) (q : Option Player) : Bool :=
  match q with
  | none => false
  | some q => decide (p.idx = q.idx)

/-- The pressing-election score of `DefenseSystem.managePressing`:
`dist - staminaCurrent * staminaWeight` with `staminaWeight = 0.3`
(lower is better). -/
def pressingScore (p : Player) (ball : Ball) : ℝ :=
  distance p.x p.y ball.x ball.y - p.staminaCurrent * 0.3

/-- Head of the candidate list after the ascending stable sort by score
(`candidates.sort((a,b) => scoreA - scoreB)` followed by `candidates[0]`):
the first candidate attaining the minimal score.  JS `Array.prototype.sort`
is stable, so ties keep the original order and the head is the first
minimiser. -/
def firstMinBy (score : Player → ℝ) : List Player → Option Player
  | [] => none
  | p :: rest =>
    match firstMinBy score rest with
    | none => some p
    | some q => if score q < score p then some q else some p

/-- The eligibility filter of the pressing election: within pressing distance
of the ball, stamina above 30, and not recovering. -/
def pressingCandidates (players : List Player) (ball : Ball) : List Player :=
  players.filter fun p =>
    decide (distance p.x p.y ball.x ball.y < PRESSING_DISTANCE) &&
    decide (p.staminaCurrent > 30) &&
    !decide (p.state = PState.RECOVERING)

/-- `DefenseSystem.managePressing(team, players, ball, delta)`: the value of
`this.pressingPlayer` after the call.  A current presser within twice the
pressing distance and above critical stamina is retained; otherwise the
presser is cleared and, when the ball is in the defensive half, re-elected
from the eligible candidates by minimal score. -/
def managePressing (team : ℕ) (players : List Player) (ball : Ball) : Option Player :=
  match players.find? (fun p => decide (p.state = PState.PRESSING)) with
  | some currentPresser =>
    let distToBall := distance currentPresser.x currentPresser.y ball.x ball.y
    if distToBall > PRESSING_DISTANCE * 2 ∨ currentPresser.staminaCurrent < STAMINA_CRITICAL then
      none
    else some currentPresser
  | none =>
    let ballDefensive :=
      if team = 1 then decide (ball.x < 600) else decide (ball.x > 600)
    if ballDefensive then firstMinBy (fun p => pressingScore p ball) (pressingCandidates players ball)
    else none

/-- `DefenseSystem.manageInterceptions(team, players, ball)`: the value of
`this.interceptingPlayers` after the call.  `pressing` and `covering` are the
coordinator's `this.pressingPlayer` / `this.coveringPlayer` at call time. -/
def manageInterceptions (players : List Player) (ball : Ball)
    (pressing covering : Option Player) : List Player :=
  let ballSpeed := ballSpeedOf ball
  if ballSpeed < 100 then []
  else
    let qualifying := players.filter fun p =>
      !(decide (p.staminaCurrent < 20) || decide (p.state = PState.RECOVERING)) &&
      !(sameAs p pressing || sameAs p covering) &&
      decide (calculateInterceptProbability p.x p.y p.stats.speed
        ⟨ball.x, ball.y⟩ ⟨ball.x + ball.vx * 0.5, ball.y + ball.vy * 0.5⟩ ballSpeed > 0.5)
    if qualifying.length > 1 then qualifying.take 1 else qualifying

/-! Tick-level machinery used to state the exclusivity invariant. -/

/-- Number of roster members currently in FSM state `s`. -/
def countState (players : List Player) (s : PState) : ℕ :=
  (players.filter fun p => decide (p.state = s)).length

/-- Reachability of a roster from an initial roster under the real
simulation's tick structure.  `envStep` over-approximates everything a tick
does besides `DecisionSystem.updatePlayer` (timer decrements, physics and
stamina updates, the Defense Coordinator's marking/compactness writes, and
the per-state `update` methods): none of those writes the `state` field, so
they may replace the roster by any list with pointwise equal states.
`decisionStep` is one team-wide `DecisionSystem.update` pass with arbitrary
ball, opponents, clock and noise inputs. -/
inductive Reach (init : List Player) : List Player → Prop
  | refl : Reach init init
  | envStep {ps qs : List Player} : Reach init ps →
      List.Forall₂ (fun a b => a.state = b.state) ps qs → Reach init qs
  | decisionStep {ps : List Player} (ball : Ball) (opponents : List Player)
      (tick : DecisionTick) (delta : ℝ) : Reach init ps →
      Reach init (runDecisions ball opponents tick delta [] ps)

/-! Spec-side definition used to state the interception-probability claim. -/

/-- Follows the spec's words for the probability stage of
`calculateInterceptProbability`: 0 when the margin (ball time minus agent
time) is not positive, "else a probability linearly scaled over a 0.5-second
window, capped at 1".  Stated as a function of the margin alone so that the
claimed monotonicity in the margin is expressible. -/
def specInterceptProbOfMargin (margin : ℝ) : ℝ :=
  if margin ≤ 0 then 0 else Min.min 1 (margin / 0.5)

/-! Concrete sample data used by witnesses and counterexamples. -/

/-- Default stat block (base `config.stats` values of `Player`'s constructor
with the `SHOOTER` base numbers, role multipliers left at 1 for clarity of the
concrete checks). -/
def mkStats : PStats :=
  { speed := 150, shootPower := 100, stamina := 100, dribble := 100,
    defense := 80, reaction := 70, aggression := 60 }

/-- A freshly constructed AI player: state `IDLE`, full stamina, all timers
zero (the constructor values of `Player`). -/
def basePlayer : Player :=
  { idx := 0, team := 1, role := Role.SHOOTER, x := 0, y := 0,
    basePosition := ⟨0, 0⟩, stats := mkStats, staminaCurrent := 100,
    state := PState.IDLE, previousState := none, zone := none,
    reactionTimer := 0, lastDecisionTime := 0, kickCooldown := 0,
    abilityDuration := 0, abilityActive := false,
    specialAbility := Ability.noAbility, pressingStartTime := none,
    isControlled := false }

/-- A stationary ball at the origin. -/
def stillBall : Ball :=
  { x := 0, y := 0, vx := 0, vy := 0, lastTouchedBy := none, lastTouchTeam := none }

/-- An empty-context sample (no teammates or opponents). -/
def emptyCtx : Ctx :=
  { ball := stillBall, teammates := [], opponents := [], allPlayers := [], delta := 16 }

/-- Witness player for the recovery-forcing claim: stamina 10, below the
critical threshold of 20. -/
def c2player : Player :=
  { basePlayer with staminaCurrent := 10, state := PState.PRESSING }

/-- Failing input for the pressing-transition claim: an `IDLE` agent 10 units
from the ball. -/
def c3player : Player :=
  { basePlayer with idx := 0, x := 110, y := 400 }

/-- The single teammate of `c3player`: 800 units from the ball, not pressing. -/
def c3mate : Player :=
  { basePlayer with idx := 1, x := 900, y := 400 }

/-- The stationary ball of the `c3` scenario, in team 1's half. -/
def c3ball : Ball :=
  { x := 100, y := 400, vx := 0, vy := 0, lastTouchedBy := none, lastTouchTeam := none }

/-- The context `DecisionSystem.update` builds for `c3player`. -/
def c3ctx : Ctx :=
  { ball := c3ball, teammates := [c3mate], opponents := [],
    allPlayers := [c3player, c3mate], delta := 16 }

/-- The intercepting agent of the reaction-delay scenario, standing on a
stationary ball (so its transition check yields the non-urgent `PRESSING`). -/
def c4p0 : Player :=
  { basePlayer with state := PState.INTERCEPTING }

/-- Context of the reaction-delay scenario: stationary ball, no teammates,
frame delta 200 ms. -/
def c4ctx : Ctx :=
  { ball := stillBall, teammates := [], opponents := [], allPlayers := [c4p0],
    delta := 200 }

/-- One 200 ms frame of the reaction-delay scenario at wall-clock `now`:
`Player.update` (timer decrements) followed by `DecisionSystem.updatePlayer`
with a zero gaussian sample. -/
def c4step (p : Player) (now : ℝ) : Player :=
  updatePlayerState (playerTimersUpdate p 200) c4ctx ⟨now, 0⟩

/-- Scenario state after the frame at t = 200 ms. -/
def c4p1 : Player := c4step c4p0 200

/-- Scenario state after the frame at t = 400 ms. -/
def c4p2 : Player := c4step c4p1 400

/-- Scenario state after the frame at t = 600 ms. -/
def c4p3 : Player := c4step c4p2 600

/-- Ball of the pressing-election scenario, inside team 1's half. -/
def c5ball : Ball :=
  { x := 100, y := 400, vx := 0, vy := 0, lastTouchedBy := none, lastTouchTeam := none }

/-- Election candidate at distance 50 from the ball with stamina 40
(score 50 - 0.3 * 40 = 38). -/
def c5candA : Player :=
  { basePlayer with idx := 10, x := 150, y := 400, staminaCurrent := 40 }

/-- Election candidate at distance 60 from the ball with stamina 90
(score 60 - 0.3 * 90 = 33). -/
def c5candB : Player :=
  { basePlayer with idx := 11, x := 160, y := 400, staminaCurrent := 90 }

/-- Kicker of the kick-cooldown scenario, 10 units from the ball with an
elapsed cooldown. -/
def c8player : Player :=
  { basePlayer with idx := 20, x := 0, y := 0 }

/-- Ball of the kick-cooldown scenario. -/
def c8ball : Ball :=
  { x := 10, y := 0, vx := 0, vy := 0, lastTouchedBy := none, lastTouchTeam := none }

/-- A player with a valid assigned zone (team 1's `DEFENSIVE` band), for the
zone-containment witness. -/
def c10player : Player :=
  { basePlayer with zone := some ZoneName.DEFENSIVE, x := 150, y := 300 }

/-! Helper lemmas. -/

theorem clamp_ge (v lo hi : ℝ) : lo ≤ clamp v lo hi :=
  le_max_left _ _

theorem clamp_le (v lo hi : ℝ) (h : lo ≤ hi) : clamp v lo hi ≤ hi :=
  max_le h (min_le_left _ _)

theorem distance_horiz (x1 y x2 : ℝ) : distance x1 y x2 y = |x2 - x1| := by
  simp only [distance]
  rw [show (x2 - x1) * (x2 - x1) + (y - y) * (y - y) = (x2 - x1) ^ 2 by ring]
  exact Real.sqrt_sq_eq_abs _

theorem lerp_bounds {a b t : ℝ} (hab : a ≤ b) (h0 : 0 ≤ t) (h1 : t ≤ 1) :
    a ≤ lerp a b t ∧ lerp a b t ≤ b := by
  unfold lerp
  constructor <;> nlinarith

theorem calculateReactionTime_mem (p : Player) (noise : ℝ) :
    REACTION_TIME_MIN ≤ calculateReactionTime p noise ∧
    calculateReactionTime p noise ≤ REACTION_TIME_MAX := by
  simp only [calculateReactionTime]
  exact lerp_bounds (by norm_num [REACTION_TIME_MIN, REACTION_TIME_MAX])
    (clamp_ge _ _ _) (clamp_le _ _ _ (by norm_num))

theorem setState_state (p : Player) (ns : PState) (now : ℝ) :
    (setState p ns now).state = ns := by
  unfold setState
  split_ifs with h1 h2 h3 <;> simp_all

theorem setState_keeps_others (p : Player) (ns : PState) (now : ℝ) :
    (setState p ns now).reactionTimer = p.reactionTimer ∧
    (setState p ns now).lastDecisionTime = p.lastDecisionTime ∧
    (setState p ns now).staminaCurrent = p.staminaCurrent := by
  unfold setState
  split_ifs <;> simp_all

theorem isUrgentState_iff (s : PState) :
    isUrgentState s = true ↔ s = PState.INTERCEPTING ∨ s = PState.RECOVERING := by
  cases s <;> simp [isUrgentState]

theorem updatePlayerState_state (p : Player) (c : Ctx) (t : DecisionTick) :
    (updatePlayerState p c t).state = p.state ∨
    (updatePlayerState p c t).state = PState.INTERCEPTING ∨
    (updatePlayerState p c t).state = PState.RECOVERING := by
  simp only [updatePlayerState]
  split_ifs with h1 h2
  · exact Or.inl rfl
  · exact Or.inl rfl
  · rcases hst : shouldTransition p.state { p with lastDecisionTime := t.now } c t.now with _ | ns
    · exact Or.inl rfl
    · have hge := (calculateReactionTime_mem { p with lastDecisionTime := t.now } t.noise).1
      have hlt : ¬ calculateReactionTime { p with lastDecisionTime := t.now } t.noise < 100 := by
        simp only [REACTION_TIME_MIN] at hge
        linarith
      by_cases hu : isUrgentState ns = true
      · simp only [decide_eq_false hlt, Bool.false_or, hu, if_true, setState_state]
        rcases (isUrgentState_iff ns).mp hu with h | h
        · exact Or.inr (Or.inl h)
        · exact Or.inr (Or.inr h)
      · have hu' : isUrgentState ns = false := by simpa using hu
        simp only [decide_eq_false hlt, Bool.false_or, hu', Bool.false_eq_true, if_false]
        exact Or.inl trivial

theorem countState_cons (p : Player) (l : List Player) (s : PState) :
    countState (p :: l) s = (if p.state = s then 1 else 0) + countState l s := by
  simp only [countState, List.filter_cons]
  split_ifs with h <;> simp_all [Nat.add_comm]

theorem countState_append (a b : List Player) (s : PState) :
    countState (a ++ b) s = countState a s + countState b s := by
  simp [countState, List.filter_append]

theorem countState_nil (s : PState) : countState [] s = 0 := rfl

theorem runDecisions_count (ball : Ball) (opp : List Player) (tick : DecisionTick)
    (delta : ℝ) (s : PState) (hs1 : s ≠ PState.INTERCEPTING)
    (hs2 : s ≠ PState.RECOVERING) :
    ∀ (pending processed : List Player),
      countState (runDecisions ball opp tick delta processed pending) s ≤
        countState processed s + countState pending s := by
  intro pending
  induction pending with
  | nil =>
    intro processed
    simp [runDecisions, countState]
  | cons p rest ih =>
    intro processed
    rw [runDecisions]
    refine (ih _).trans ?_
    rw [countState_append, countState_cons, countState_cons, countState_nil]
    have hupd := updatePlayerState_state p
      { ball := ball, teammates := processed ++ rest, opponents := opp,
        allPlayers := processed ++ p :: rest, delta := delta } tick
    by_cases hq :
      (updatePlayerState p
        { ball := ball, teammates := processed ++ rest, opponents := opp,
          allPlayers := processed ++ p :: rest, delta := delta } tick).state = s
    · have hp : p.state = s := by
        rcases hupd with h | h | h
        · rw [← h]; exact hq
        · rw [h] at hq; exact absurd hq.symm hs1
        · rw [h] at hq; exact absurd hq.symm hs2
      rw [if_pos hq, if_pos hp]
      omega
    · rw [if_neg hq]
      split_ifs <;> omega

theorem countState_eq_of_sameStates {ps qs : List Player}
    (h : List.Forall₂ (fun a b => a.state = b.state) ps qs) (s : PState) :
    countState ps s = countState qs s := by
  induction h with
  | nil => rfl
  | cons hab _ ih => rw [countState_cons, countState_cons, hab, ih]

theorem reach_countState_zero {init ps : List Player} (h : Reach init ps) (s : PState)
    (hs1 : s ≠ PState.INTERCEPTING) (hs2 : s ≠ PState.RECOVERING)
    (h0 : countState init s = 0) : countState ps s = 0 := by
  induction h with
  | refl => exact h0
  | envStep _ hsame ih => rw [← countState_eq_of_sameStates hsame]; exact ih
  | @decisionStep qs ball opp tick delta _ ih =>
    have hb := runDecisions_count ball opp tick delta s hs1 hs2 qs []
    rw [countState_nil] at hb
    omega

theorem countState_zero_of_ne {ps : List Player} {s : PState}
    (h : ∀ p ∈ ps, p.state ≠ s) : countState ps s = 0 := by
  induction ps with
  | nil => rfl
  | cons p rest ih =>
    rw [countState_cons, if_neg (h p (by simp))]
    simp only [Nat.zero_add]
    exact ih fun q hq => h q (by simp [hq])

/-- C1: at every reachable tick, at most one agent of a team is in FSM state
`PRESSING`, at most one is in `COVERING`, and the Defense Coordinator's
interceptor set has size at most 1. -/
theorem c1_exclusivity :
    (∀ (init ps : List Player), Reach init ps →
      (∀ p ∈ init, p.state = PState.IDLE) →
      countState ps PState.PRESSING ≤ 1 ∧ countState ps PState.COVERING ≤ 1) ∧
    (∀ (players : List Player) (ball : Ball) (pressing covering : Option Player),
      (manageInterceptions players ball pressing covering).length ≤ 1) := by
  constructor
  · intro init ps hreach hidle
    have h0 : ∀ s, s ≠ PState.IDLE → countState init s = 0 := fun s hs =>
      countState_zero_of_ne fun p hp => by rw [hidle p hp]; exact fun hh => hs hh.symm
    constructor
    · rw [reach_countState_zero hreach PState.PRESSING (by simp) (by simp)
        (h0 _ (by simp))]
      omega
    · rw [reach_countState_zero hreach PState.COVERING (by simp) (by simp)
        (h0 _ (by simp))]
      omega
  · intro players ball pressing covering
    simp only [manageInterceptions]
    split_ifs with h1 h2
    · simp
    · simp [List.length_take]
    · omega

/-- Witness for C1 at a concrete one-player roster and interception call. -/
theorem c1_exclusivity_witness :
    (∀ p ∈ [basePlayer], p.state = PState.IDLE) ∧
    countState [basePlayer] PState.PRESSING ≤ 1 ∧
    countState [basePlayer] PState.COVERING ≤ 1 ∧
    (manageInterceptions [basePlayer] stillBall none none).length ≤ 1 := by
  have hidle : ∀ p ∈ [basePlayer], p.state = PState.IDLE := by
    intro p hp
    simp only [List.mem_singleton] at hp
    rw [hp]
    rfl
  exact ⟨hidle, (c1_exclusivity.1 _ _ Reach.refl hidle).1,
    (c1_exclusivity.1 _ _ Reach.refl hidle).2,
    c1_exclusivity.2 [basePlayer] stillBall none none⟩

/-- C2: a transition check performed with stamina below the critical
threshold always results in the `RECOVERING` state, whatever the current
state, ball, teammates or clock. -/
theorem c2_recovery_forcing (s : PState) (player : Player) (context : Ctx) (now : ℝ)
    (h : player.staminaCurrent < STAMINA_CRITICAL) :
    transitionResult s player context now = PState.RECOVERING := by
  have h40 : ¬ player.staminaCurrent > STAMINA_LOW := by
    simp only [STAMINA_CRITICAL] at h
    simp only [STAMINA_LOW]
    linarith
  cases s <;>
    simp [transitionResult, shouldTransition, idleShouldTransition,
      defensiveShouldTransition, pressingShouldTransition, coveringShouldTransition,
      interceptingShouldTransition, recoveringShouldTransition, h, h40]

/-- Witness for C2: a pressing player with stamina 10. -/
theorem c2_recovery_forcing_witness :
    c2player.staminaCurrent < STAMINA_CRITICAL ∧
    transitionResult PState.PRESSING c2player emptyCtx 0 = PState.RECOVERING := by
  have h : c2player.staminaCurrent < STAMINA_CRITICAL := by
    norm_num [c2player, basePlayer, STAMINA_CRITICAL]
  exact ⟨h, c2_recovery_forcing _ _ _ _ h⟩

/-- C6: with positive agent speed and ball speed, the interception
probability is 0 exactly when the agent cannot arrive strictly before the
ball, lies in (0, 1] otherwise, equals a monotone function of the time margin
(hence is non-decreasing in it), and saturates at 1 for margins of at least
half a second. -/
theorem c6_intercept_probability (px py pspeed : ℝ) (ballPos passTarget : Vec2)
    (ballSpeed : ℝ) (hp : 0 < pspeed) (hb : 0 < ballSpeed) :
    (timeForPlayer px py pspeed ballPos passTarget ≥
        timeForBall px py ballPos passTarget ballSpeed →
      calculateInterceptProbability px py pspeed ballPos passTarget ballSpeed = 0) ∧
    (timeForPlayer px py pspeed ballPos passTarget <
        timeForBall px py ballPos passTarget ballSpeed →
      0 < calculateInterceptProbability px py pspeed ballPos passTarget ballSpeed ∧
      calculateInterceptProbability px py pspeed ballPos passTarget ballSpeed ≤ 1) ∧
    calculateInterceptProbability px py pspeed ballPos passTarget ballSpeed =
      specInterceptProbOfMargin
        (timeForBall px py ballPos passTarget ballSpeed -
          timeForPlayer px py pspeed ballPos passTarget) ∧
    Monotone specInterceptProbOfMargin ∧
    (0.5 ≤ timeForBall px py ballPos passTarget ballSpeed -
        timeForPlayer px py pspeed ballPos passTarget →
      calculateInterceptProbability px py pspeed ballPos passTarget ballSpeed = 1) := by
  have hmono : Monotone specInterceptProbOfMargin := by
    intro m1 m2 hm
    simp only [specInterceptProbOfMargin]
    split_ifs with h1 h2 h2
    · exact le_rfl
    · have h2' : 0 < m2 := lt_of_not_le h2
      exact le_min (by norm_num) (le_of_lt (div_pos h2' (by norm_num)))
    · linarith
    · exact min_le_min le_rfl ((div_le_div_iff_of_pos_right (by norm_num)).mpr hm)
  simp only [calculateInterceptProbability]
  set tP := timeForPlayer px py pspeed ballPos passTarget with htP
  set tB := timeForBall px py ballPos passTarget ballSpeed with htB
  refine ⟨fun h => if_pos h, fun h => ?_, ?_, hmono, fun h => ?_⟩
  · rw [if_neg (not_le.mpr h)]
    exact ⟨lt_min (by norm_num) (div_pos (by linarith) (by norm_num)),
      min_le_left _ _⟩
  · by_cases h : tP ≥ tB
    · rw [if_pos h, specInterceptProbOfMargin, if_pos (by linarith [h])]
    · rw [if_neg h, specInterceptProbOfMargin,
        if_neg (by simp only [not_le] at h ⊢; linarith)]
  · have hlt : ¬ tP ≥ tB := by simp only [not_le]; linarith
    rw [if_neg hlt]
    exact min_eq_left ((one_le_div (by norm_num)).mpr (by linarith))

/-- Witness for C6 at a concrete agent and passing line. -/
theorem c6_intercept_probability_witness :
    0 < (10 : ℝ) ∧ 0 < (50 : ℝ) ∧
    (timeForPlayer 0 30 10 ⟨0, 0⟩ ⟨100, 0⟩ ≥ timeForBall 0 30 ⟨0, 0⟩ ⟨100, 0⟩ 50 →
      calculateInterceptProbability 0 30 10 ⟨0, 0⟩ ⟨100, 0⟩ 50 = 0) ∧
    calculateInterceptProbability 0 30 10 ⟨0, 0⟩ ⟨100, 0⟩ 50 =
      specInterceptProbOfMargin
        (timeForBall 0 30 ⟨0, 0⟩ ⟨100, 0⟩ 50 - timeForPlayer 0 30 10 ⟨0, 0⟩ ⟨100, 0⟩) := by
  have h := c6_intercept_probability 0 30 10 ⟨0, 0⟩ ⟨100, 0⟩ 50
    (by norm_num) (by norm_num)
  exact ⟨by norm_num, by norm_num, h.1, h.2.2.1⟩

/-- C7: every stamina-writing operation of the core keeps `staminaCurrent`
inside `[0, stats.stamina]`: the movement system's drain/recovery, the
regeneration in `IDLE.update` and `RECOVERING.update`, the elevated drain in
`PRESSING.update`, the 15-point spend of `MovementSystem.dash`, and the
40-point spend of `activateAbility`. -/
theorem c7_stamina_bounds (player : Player) (delta vx vy angle power : ℝ)
    (h0 : 0 ≤ player.staminaCurrent)
    (hmax : player.staminaCurrent ≤ player.stats.stamina) (hd : 0 ≤ delta) :
    (0 ≤ updateStamina player delta vx vy ∧
      updateStamina player delta vx vy ≤ player.stats.stamina) ∧
    (0 ≤ idleUpdateStamina player delta ∧
      idleUpdateStamina player delta ≤ player.stats.stamina) ∧
    (0 ≤ pressingUpdateStamina player delta ∧
      pressingUpdateStamina player delta ≤ player.stats.stamina) ∧
    (0 ≤ recoveringUpdateStamina player delta ∧
      recoveringUpdateStamina player delta ≤ player.stats.stamina) ∧
    (0 ≤ (dash player angle power vx vy).staminaCurrent ∧
      (dash player angle power vx vy).staminaCurrent ≤ player.stats.stamina) ∧
    (0 ≤ (activateAbility player).staminaCurrent ∧
      (activateAbility player).staminaCurrent ≤ player.stats.stamina) := by
  have hsm : 0 ≤ player.stats.stamina := le_trans h0 hmax
  have hds : 0 ≤ delta / 1000 := div_nonneg hd (by norm_num)
  have hdrain : ∀ r : ℝ, 0 ≤ r →
      0 ≤ Max.max 0 (player.staminaCurrent - r) ∧
      Max.max 0 (player.staminaCurrent - r) ≤ player.stats.stamina :=
    fun r hr => ⟨le_max_left _ _, max_le hsm (by linarith)⟩
  have hrec : ∀ r : ℝ, 0 ≤ r →
      0 ≤ Min.min player.stats.stamina (player.staminaCurrent + r) ∧
      Min.min player.stats.stamina (player.staminaCurrent + r) ≤ player.stats.stamina :=
    fun r hr => ⟨le_min hsm (by linarith), min_le_left _ _⟩
  refine ⟨?_, ?_, ?_, ?_, ?_, ?_⟩
  · simp only [updateStamina]
    cases hrole : player.role <;> dsimp only <;> split_ifs <;>
      first
        | exact hdrain _ (mul_nonneg (mul_nonneg (by norm_num) hds) hsm)
        | exact hrec _
            (mul_nonneg (mul_nonneg (by norm_num [STAMINA_RECOVERY_RATE]) hds) hsm)
  · exact hrec _ (mul_nonneg (by norm_num [STAMINA_RECOVERY_RATE]) hds)
  · exact hdrain _ (mul_nonneg (mul_nonneg (by norm_num) hds) hsm)
  · exact hrec _ (mul_nonneg (by norm_num [STAMINA_RECOVERY_RATE]) hds)
  · simp only [dash]
    split_ifs with hlow
    · exact ⟨h0, hmax⟩
    · simp only [not_lt] at hlow
      exact ⟨by simp; linarith, by simp; linarith⟩
  · simp only [activateAbility]
    split_ifs with ha hb
    · exact ⟨h0, hmax⟩
    · exact ⟨h0, hmax⟩
    · simp only [not_lt] at hb
      exact ⟨by simp; linarith, by simp; linarith⟩

/-- Witness for C7 at a freshly constructed player, a 100 ms frame and a
full-power dash. -/
theorem c7_stamina_bounds_witness :
    0 ≤ basePlayer.staminaCurrent ∧
    basePlayer.staminaCurrent ≤ basePlayer.stats.stamina ∧ 0 ≤ (100 : ℝ) ∧
    0 ≤ updateStamina basePlayer 100 0 0 ∧
    updateStamina basePlayer 100 0 0 ≤ basePlayer.stats.stamina ∧
    0 ≤ (dash basePlayer 0 1 0 0).staminaCurrent ∧
    (dash basePlayer 0 1 0 0).staminaCurrent ≤ basePlayer.stats.stamina ∧
    0 ≤ (activateAbility basePlayer).staminaCurrent ∧
    (activateAbility basePlayer).staminaCurrent ≤ basePlayer.stats.stamina := by
  have h0 : 0 ≤ basePlayer.staminaCurrent := by norm_num [basePlayer, mkStats]
  have hm : basePlayer.staminaCurrent ≤ basePlayer.stats.stamina := by
    norm_num [basePlayer, mkStats]
  have h := c7_stamina_bounds basePlayer 100 0 0 0 1 h0 hm (by norm_num)
  exact ⟨h0, hm, by norm_num, h.1.1, h.1.2, h.2.2.2.2.1.1, h.2.2.2.2.1.2,
    h.2.2.2.2.2.1, h.2.2.2.2.2.2⟩

/-- C9: `calculateInterception` returns the target's current position for a
zero target velocity and otherwise the target's position advanced by its
velocity times `distance / (chaserSpeed + targetSpeed)`; at the concrete
scenario (chaser at the origin with speed 10, target at (50, 0) moving at
(5, 0)) the meeting point is `x = 50 + 5 * (50 / 15)`, strictly between 50
and 100, at `y = 0`. -/
theorem c9_calculate_interception (chaser : Chaser) (target : MovingTarget) :
    (target.vx = 0 → target.vy = 0 →
      calculateInterception chaser target = ⟨target.x, target.y⟩) ∧
    (¬ (target.vx = 0 ∧ target.vy = 0) →
      calculateInterception chaser target =
        ⟨target.x + target.vx *
            (distance chaser.x chaser.y target.x target.y /
              (chaser.speed + Real.sqrt (target.vx * target.vx + target.vy * target.vy))),
         target.y + target.vy *
            (distance chaser.x chaser.y target.x target.y /
              (chaser.speed + Real.sqrt (target.vx * target.vx + target.vy * target.vy)))⟩) ∧
    (calculateInterception ⟨0, 0, 10⟩ ⟨50, 0, 5, 0⟩).x = 50 + 5 * (50 / (10 + 5)) ∧
    (calculateInterception ⟨0, 0, 10⟩ ⟨50, 0, 5, 0⟩).y = 0 ∧
    50 < (calculateInterception ⟨0, 0, 10⟩ ⟨50, 0, 5, 0⟩).x ∧
    (calculateInterception ⟨0, 0, 10⟩ ⟨50, 0, 5, 0⟩).x < 100 := by
  have key : calculateInterception ⟨0, 0, 10⟩ ⟨50, 0, 5, 0⟩ = ⟨200 / 3, 0⟩ := by
    simp only [calculateInterception]
    rw [show ((50 : ℝ) - 0) * ((50 : ℝ) - 0) + ((0 : ℝ) - 0) * ((0 : ℝ) - 0) = 50 ^ 2 by
      norm_num]
    rw [show (5 : ℝ) * 5 + 0 * 0 = 5 ^ 2 by norm_num]
    rw [Real.sqrt_sq (by norm_num : (0:ℝ) ≤ 50), Real.sqrt_sq (by norm_num : (0:ℝ) ≤ 5)]
    rw [if_neg (by norm_num : ¬ (5 : ℝ) = 0)]
    simp only [Vec2.mk.injEq]
    norm_num
  refine ⟨?_, ?_, ?_, ?_, ?_, ?_⟩
  · intro hvx hvy
    simp [calculateInterception, hvx, hvy]
  · intro h
    have hvpos : 0 < target.vx * target.vx + target.vy * target.vy := by
      rcases not_and_or.mp h with h1 | h1
      · have := mul_self_pos.mpr h1
        nlinarith [mul_self_nonneg target.vy]
      · have := mul_self_pos.mpr h1
        nlinarith [mul_self_nonneg target.vx]
    have hne : Real.sqrt (target.vx * target.vx + target.vy * target.vy) ≠ 0 :=
      ne_of_gt (Real.sqrt_pos.mpr hvpos)
    simp only [calculateInterception, distance]
    rw [if_neg hne]
  · rw [key]; norm_num
  · rw [key]
  · rw [key]; norm_num
  · rw [key]; norm_num

/-- Witness for C9's conditional parts at a stationary target. -/
theorem c9_calculate_interception_witness :
    calculateInterception ⟨3, 4, 10⟩ ⟨7, 9, 0, 0⟩ = ⟨7, 9⟩ := by
  have h := (c9_calculate_interception ⟨3, 4, 10⟩ ⟨7, 9, 0, 0⟩).1 rfl rfl
  exact h

theorem zone_dims (team : ℕ) (zn : ZoneName) :
    (getZone team zn).width = 275 ∧ (getZone team zn).height = 600 := by
  unfold getZone
  split_ifs <;> cases zn <;>
    norm_num [zonesTeam1, zonesTeam2, FIELD_WIDTH, FIELD_HEIGHT]

/-- C10: for a player with a valid assigned zone, the target returned by
`getOptimalZonePosition` lies inside the zone rectangle shrunk by the
20-unit margin on all four sides, for every ball position and teammate
list. -/
theorem c10_zone_containment (player : Player) (ball : Ball) (teammates : List Player)
    (zn : ZoneName) (hz : player.zone = some zn) :
    (getZone player.team zn).x + 20 ≤ (getOptimalZonePosition player ball teammates).x ∧
    (getOptimalZonePosition player ball teammates).x ≤
      (getZone player.team zn).x + (getZone player.team zn).width - 20 ∧
    (getZone player.team zn).y + 20 ≤ (getOptimalZonePosition player ball teammates).y ∧
    (getOptimalZonePosition player ball teammates).y ≤
      (getZone player.team zn).y + (getZone player.team zn).height - 20 := by
  have hw := (zone_dims player.team zn).1
  have hh := (zone_dims player.team zn).2
  simp only [getOptimalZonePosition, hz]
  exact ⟨clamp_ge _ _ _, clamp_le _ _ _ (by linarith), clamp_ge _ _ _,
    clamp_le _ _ _ (by linarith)⟩

/-- Witness for C10: a player assigned team 1's defensive band. -/
theorem c10_zone_containment_witness :
    c10player.zone = some ZoneName.DEFENSIVE ∧
    (getZone c10player.team ZoneName.DEFENSIVE).x + 20 ≤
      (getOptimalZonePosition c10player stillBall []).x ∧
    (getOptimalZonePosition c10player stillBall []).x ≤
      (getZone c10player.team ZoneName.DEFENSIVE).x +
        (getZone c10player.team ZoneName.DEFENSIVE).width - 20 ∧
    (getZone c10player.team ZoneName.DEFENSIVE).y + 20 ≤
      (getOptimalZonePosition c10player stillBall []).y ∧
    (getOptimalZonePosition c10player stillBall []).y ≤
      (getZone c10player.team ZoneName.DEFENSIVE).y +
        (getZone c10player.team ZoneName.DEFENSIVE).height - 20 := by
  exact ⟨rfl, c10_zone_containment c10player stillBall [] ZoneName.DEFENSIVE rfl⟩

theorem playerTimersUpdate_kickCooldown (p : Player) (d : ℝ) :
    (playerTimersUpdate p d).kickCooldown =
      if p.kickCooldown > 0 then p.kickCooldown - d else p.kickCooldown := by
  simp only [playerTimersUpdate]
  split_ifs <;> simp_all

theorem kickCooldown_after_frames :
    ∀ (deltas : List ℝ) (p : Player), (∀ d ∈ deltas, 0 ≤ d) →
      deltas.sum < p.kickCooldown →
      (deltas.foldl playerTimersUpdate p).kickCooldown = p.kickCooldown - deltas.sum := by
  intro deltas
  induction deltas with
  | nil => intro p _ _; simp
  | cons d rest ih =>
    intro p hall hsum
    simp only [List.foldl_cons, List.sum_cons] at hsum ⊢
    have hd : 0 ≤ d := hall d (by simp)
    have hrest : ∀ x ∈ rest, 0 ≤ x := fun x hx => hall x (by simp [hx])
    have hrsum : 0 ≤ rest.sum := List.sum_nonneg hrest
    have hpos : p.kickCooldown > 0 := by linarith
    have hcd : (playerTimersUpdate p d).kickCooldown = p.kickCooldown - d := by
      rw [playerTimersUpdate_kickCooldown, if_pos hpos]
    rw [ih (playerTimersUpdate p d) hrest (by rw [hcd]; linarith), hcd]
    ring

/-- C8: a kick during cooldown fails and mutates nothing (ball velocity,
last-toucher stamps and the kicker's cooldown are all unchanged); and after a
successful kick, any second kick attempted before 300 ms of frame time have
elapsed fails and leaves the ball unchanged. -/
theorem c8_kick_cooldown (p : Player) (ball : Ball) (tx ty tx2 ty2 : ℝ)
    (deltas : List ℝ) :
    (p.kickCooldown > 0 → kick p ball tx ty = ⟨false, p, ball⟩) ∧
    (¬ p.kickCooldown > 0 → ¬ distance p.x p.y ball.x ball.y > 40 →
      (∀ d ∈ deltas, 0 ≤ d) → deltas.sum < KICK_COOLDOWN →
      (kick p ball tx ty).success = true ∧
      (deltas.foldl playerTimersUpdate (kick p ball tx ty).player).kickCooldown > 0 ∧
      kick (deltas.foldl playerTimersUpdate (kick p ball tx ty).player)
          (kick p ball tx ty).ball tx2 ty2 =
        ⟨false, deltas.foldl playerTimersUpdate (kick p ball tx ty).player,
          (kick p ball tx ty).ball⟩) := by
  have hfail : ∀ (q : Player) (b : Ball) (ux uy : ℝ), q.kickCooldown > 0 →
      kick q b ux uy = ⟨false, q, b⟩ := by
    intro q b ux uy h
    simp only [kick]
    rw [if_pos h]
  refine ⟨hfail p ball tx ty, ?_⟩
  intro hcd hdist hall hsum
  have hplayer : (kick p ball tx ty).player = { p with kickCooldown := KICK_COOLDOWN } := by
    simp only [kick]
    rw [if_neg hcd, if_neg hdist]
  have hsucc : (kick p ball tx ty).success = true := by
    simp only [kick]
    rw [if_neg hcd, if_neg hdist]
  have hcool : (deltas.foldl playerTimersUpdate (kick p ball tx ty).player).kickCooldown =
      KICK_COOLDOWN - deltas.sum := by
    rw [hplayer, kickCooldown_after_frames deltas _ hall (by simp; exact hsum)]
  have hpos : (deltas.foldl playerTimersUpdate (kick p ball tx ty).player).kickCooldown > 0 := by
    rw [hcool]
    simp only [KICK_COOLDOWN] at hsum ⊢
    linarith
  exact ⟨hsucc, hpos, hfail _ _ _ _ hpos⟩

/-- Witness for C8: a kicker 10 units from the ball with elapsed cooldown,
re-kicking after frames totalling 250 ms. -/
theorem c8_kick_cooldown_witness :
    ¬ c8player.kickCooldown > 0 ∧
    ¬ distance c8player.x c8player.y c8ball.x c8ball.y > 40 ∧
    (∀ d ∈ [(100 : ℝ), 150], 0 ≤ d) ∧ [(100 : ℝ), 150].sum < KICK_COOLDOWN ∧
    (kick c8player c8ball 1150 400).success = true ∧
    kick ([(100 : ℝ), 150].foldl playerTimersUpdate (kick c8player c8ball 1150 400).player)
        (kick c8player c8ball 1150 400).ball 1150 400 =
      ⟨false, [(100 : ℝ), 150].foldl playerTimersUpdate (kick c8player c8ball 1150 400).player,
        (kick c8player c8ball 1150 400).ball⟩ := by
  have h1 : ¬ c8player.kickCooldown > 0 := by norm_num [c8player, basePlayer]
  have h2 : ¬ distance c8player.x c8player.y c8ball.x c8ball.y > 40 := by
    simp only [c8player, c8ball, basePlayer]
    rw [distance_horiz]
    norm_num
  have h3 : ∀ d ∈ [(100 : ℝ), 150], 0 ≤ d := by
    simp only [List.mem_cons, List.mem_singleton]
    rintro d (rfl | rfl | h)
    · norm_num
    · norm_num
    · simp at h
  have h4 : [(100 : ℝ), 150].sum < KICK_COOLDOWN := by
    norm_num [KICK_COOLDOWN]
  have h := (c8_kick_cooldown c8player c8ball 1150 400 1150 400 [(100 : ℝ), 150]).2
    h1 h2 h3 h4
  exact ⟨h1, h2, h3, h4, h.1, h.2.2⟩

theorem getClosestToBall_mem_aux (ball : Ball) :
    ∀ (l : List Player) (acc : Option Player) (c : Player),
      l.foldl
        (fun closest p =>
          match closest with
          | none => some p
          | some b =>
            if distance p.x p.y ball.x ball.y < distance b.x b.y ball.x ball.y then some p
            else some b)
        acc = some c →
      some c = acc ∨ c ∈ l := by
  intro l
  induction l with
  | nil =>
    intro acc c h
    exact Or.inl h.symm
  | cons a rest ih =>
    intro acc c h
    rw [List.foldl_cons] at h
    rcases ih _ c h with hacc | hmem
    · rcases acc with _ | b
      · simp only at hacc
        rw [Option.some_inj.mp hacc]
        exact Or.inr (by simp)
      · simp only at hacc
        split_ifs at hacc
        · rw [Option.some_inj.mp hacc]
          exact Or.inr (by simp)
        · exact Or.inl (by rw [Option.some_inj.mp hacc])
    · exact Or.inr (by simp [hmem])

theorem getClosestToBall_mem (players : List Player) (ball : Ball) (c : Player)
    (h : getClosestToBall players ball = some c) : c ∈ players := by
  rcases getClosestToBall_mem_aux ball players none c h with hacc | hmem
  · exact absurd hacc (by simp)
  · exact hmem

/-- `IDLE.shouldPress` can never return `true` in the contexts the decision
system builds, because `context.teammates` excludes the deciding agent and
the closest teammate is compared with the agent by object identity. -/
theorem shouldPress_eq_false (player : Player) (context : Ctx)
    (h : ∀ t ∈ context.teammates, t.idx ≠ player.idx) :
    shouldPress player context = false := by
  simp only [shouldPress]
  split_ifs with ha
  · rfl
  · rcases hc : getClosestToBall context.teammates context.ball with _ | c
    · rfl
    · simp only [closestIs]
      exact decide_eq_false (h c (getClosestToBall_mem _ _ _ hc))

/-- C3 (code bug): at a concrete input satisfying every premise of the claim
(idle agent, ample stamina, ball within pressing distance, agent strictly
closest to the ball, no pressing teammate) the transition check returns
`DEFENSIVE`, not `PRESSING`: `IDLE.shouldPress` compares the closest element
of `context.teammates` — a list that never contains the agent itself — with
the agent by identity, so it is always false. -/
theorem c3_pressing_transition_bug :
    c3player.state = PState.IDLE ∧
    ¬ c3player.staminaCurrent < STAMINA_CRITICAL ∧
    distance c3player.x c3player.y c3ball.x c3ball.y < PRESSING_DISTANCE ∧
    distance c3player.x c3player.y c3ball.x c3ball.y <
      distance c3mate.x c3mate.y c3ball.x c3ball.y ∧
    (∀ t ∈ c3ctx.teammates, t.state ≠ PState.PRESSING) ∧
    shouldPress c3player c3ctx = false ∧
    idleShouldTransition c3player c3ctx = some PState.DEFENSIVE ∧
    idleShouldTransition c3player c3ctx ≠ some PState.PRESSING := by
  have hdp : distance c3player.x c3player.y c3ball.x c3ball.y = 10 := by
    simp only [c3player, c3ball, basePlayer]
    rw [distance_horiz]
    norm_num
  have hdm : distance c3mate.x c3mate.y c3ball.x c3ball.y = 800 := by
    simp only [c3mate, c3ball, basePlayer]
    rw [distance_horiz]
    norm_num
  have hstam : ¬ c3player.staminaCurrent < STAMINA_CRITICAL := by
    norm_num [c3player, basePlayer, mkStats, STAMINA_CRITICAL]
  have hsp : shouldPress c3player c3ctx = false := by
    apply shouldPress_eq_false
    intro t ht
    simp only [c3ctx, List.mem_singleton] at ht
    rw [ht]
    norm_num [c3mate, c3player, basePlayer]
  have hmain : idleShouldTransition c3player c3ctx = some PState.DEFENSIVE := by
    simp only [idleShouldTransition]
    rw [if_neg hstam, hsp]
    simp only [Bool.and_false, Bool.false_eq_true, if_false]
    have hcov : shouldCover c3player c3ctx = false := by
      simp [shouldCover, c3ctx, c3mate, basePlayer]
    have hint : shouldIntercept c3player c3ctx = false := by
      simp only [shouldIntercept, ballSpeedOf, c3ctx, c3ball]
      norm_num
    have hdef : isInDefensiveMode c3player c3ctx = true := by
      simp only [isInDefensiveMode, c3player, c3ctx, c3ball, basePlayer, MIDFIELD_START]
      norm_num
    rw [hcov, hint, hdef]
    simp
  refine ⟨by simp [c3player, basePlayer], hstam, ?_, ?_, ?_, hsp, hmain, ?_⟩
  · rw [hdp]; norm_num [PRESSING_DISTANCE]
  · rw [hdp, hdm]; norm_num
  · intro t ht
    simp only [c3ctx, List.mem_singleton] at ht
    rw [ht]
    simp [c3mate, basePlayer]
  · rw [hmain]
    simp

theorem firstMinBy_nil (score : Player → ℝ) : firstMinBy score [] = none := rfl

theorem firstMinBy_pair (score : Player → ℝ) (a b : Player) :
    firstMinBy score [a, b] = if score b < score a then some b else some a := rfl

theorem firstMinBy_eq_none (score : Player → ℝ) :
    ∀ l : List Player, firstMinBy score l = none → l = [] := by
  intro l h
  cases l with
  | nil => rfl
  | cons a rest =>
    rw [firstMinBy] at h
    rcases hr : firstMinBy score rest with _ | r <;> rw [hr] at h <;> dsimp only at h
    · exact absurd h (by simp)
    · split_ifs at h

theorem firstMinBy_le (score : Player → ℝ) :
    ∀ (l : List Player) (q : Player), firstMinBy score l = some q →
      ∀ p ∈ l, score q ≤ score p := by
  intro l
  induction l with
  | nil =>
    intro q h
    simp [firstMinBy] at h
  | cons a rest ih =>
    intro q h p hp
    rw [firstMinBy] at h
    rcases hr : firstMinBy score rest with _ | r <;> rw [hr] at h <;> dsimp only at h
    · obtain rfl : a = q := Option.some_inj.mp h
      rcases List.mem_cons.mp hp with rfl | hp'
      · exact le_rfl
      · rw [firstMinBy_eq_none score rest hr] at hp'
        simp at hp'
    · rcases List.mem_cons.mp hp with rfl | hp'
      · split_ifs at h with hlt
        · rw [← Option.some_inj.mp h]
          exact le_of_lt hlt
        · rw [← Option.some_inj.mp h]
      · have hrp := ih r hr p hp'
        split_ifs at h with hlt
        · rw [← Option.some_inj.mp h]
          exact hrp
        · rw [← Option.some_inj.mp h]
          exact le_trans (not_lt.mp hlt) hrp

theorem c5_scoreA : pressingScore c5candA c5ball = 38 := by
  simp only [pressingScore, c5candA, c5ball, basePlayer]
  rw [distance_horiz]
  norm_num

theorem c5_scoreB : pressingScore c5candB c5ball = 33 := by
  simp only [pressingScore, c5candB, c5ball, basePlayer]
  rw [distance_horiz]
  norm_num

theorem c5_no_presser :
    ([c5candA, c5candB].find? (fun p => decide (p.state = PState.PRESSING))) = none := by
  simp [c5candA, c5candB, basePlayer]

theorem c5_election_eval :
    managePressing 1 [c5candA, c5candB] c5ball = some c5candB := by
  have hA : distance c5candA.x c5candA.y c5ball.x c5ball.y = 50 := by
    simp only [c5candA, c5ball, basePlayer]
    rw [distance_horiz]
    norm_num
  have hB : distance c5candB.x c5candB.y c5ball.x c5ball.y = 60 := by
    simp only [c5candB, c5ball, basePlayer]
    rw [distance_horiz]
    norm_num
  have hcands : pressingCandidates [c5candA, c5candB] c5ball = [c5candA, c5candB] := by
    simp only [pressingCandidates, List.filter_cons, List.filter_nil, hA, hB]
    norm_num [c5candA, c5candB, basePlayer, PRESSING_DISTANCE,
      show (decide (PState.IDLE = PState.RECOVERING)) = false from rfl]
  simp only [managePressing, c5_no_presser]
  rw [if_pos (by norm_num [c5ball])]
  rw [hcands, firstMinBy_pair]
  rw [if_pos (show pressingScore c5candB c5ball < pressingScore c5candA c5ball by
    rw [c5_scoreA, c5_scoreB]; norm_num)]

/-- C5 (amended): the pressing election ranks the eligible candidates by
score = distance-to-ball − 0.3 × stamina with the LOWER score preferred; in
the two-candidate scenario the candidate at distance 60 with stamina 90
(score 33) is elected over the one at distance 50 with stamina 40
(score 38). -/
theorem c5_pressing_election :
    (∀ (team : ℕ) (players : List Player) (ball : Ball) (q : Player),
      players.find? (fun p => decide (p.state = PState.PRESSING)) = none →
      managePressing team players ball = some q →
      ∀ p ∈ pressingCandidates players ball, pressingScore q ball ≤ pressingScore p ball) ∧
    pressingScore c5candA c5ball = 38 ∧
    pressingScore c5candB c5ball = 33 ∧
    managePressing 1 [c5candA, c5candB] c5ball = some c5candB := by
  refine ⟨?_, c5_scoreA, c5_scoreB, c5_election_eval⟩
  intro team players ball q hnone' hmp p hp
  simp only [managePressing, hnone'] at hmp
  split_ifs at hmp <;> exact firstMinBy_le _ _ _ hmp p hp

/-- Counterexample to C5 as stated: the claim elects the distance-50,
stamina-40 candidate, but the code elects the other (lower-score) one. -/
theorem c5_pressing_election_counterexample :
    managePressing 1 [c5candA, c5candB] c5ball = some c5candB ∧
    some c5candB ≠ some c5candA := by
  refine ⟨c5_election_eval, ?_⟩
  intro h
  have hidx : c5candB.idx = c5candA.idx := by rw [Option.some_inj.mp h]
  norm_num [c5candA, c5candB, basePlayer] at hidx

/-- Witness for C5's general ranking statement at the two-candidate
scenario. -/
theorem c5_pressing_election_witness :
    ([c5candA, c5candB].find? (fun p => decide (p.state = PState.PRESSING)) = none) ∧
    (∀ p ∈ pressingCandidates [c5candA, c5candB] c5ball,
      pressingScore c5candB c5ball ≤ pressingScore p c5ball) := by
  exact ⟨c5_no_presser, c5_pressing_election.1 1 [c5candA, c5candB] c5ball c5candB
    c5_no_presser c5_election_eval⟩

theorem updatePlayerState_skip2 (p : Player) (c : Ctx) (t : DecisionTick)
    (h1 : ¬ t.now - p.lastDecisionTime < DECISION_INTERVAL)
    (h2 : p.reactionTimer > 0) : updatePlayerState p c t = p := by
  simp only [updatePlayerState]
  rw [if_neg h1, if_pos h2]

theorem updatePlayerState_deferred (p : Player) (c : Ctx) (t : DecisionTick) (ns : PState)
    (h1 : ¬ t.now - p.lastDecisionTime < DECISION_INTERVAL)
    (h2 : ¬ p.reactionTimer > 0)
    (hst : shouldTransition p.state { p with lastDecisionTime := t.now } c t.now = some ns)
    (hu : isUrgentState ns = false) :
    updatePlayerState p c t =
      { p with
          lastDecisionTime := t.now
          reactionTimer :=
            calculateReactionTime { p with lastDecisionTime := t.now } t.noise } := by
  have hge := (calculateReactionTime_mem { p with lastDecisionTime := t.now } t.noise).1
  have hlt : ¬ calculateReactionTime { p with lastDecisionTime := t.now } t.noise < 100 := by
    simp only [REACTION_TIME_MIN] at hge
    linarith
  simp only [updatePlayerState]
  rw [if_neg h1, if_neg h2, hst]
  simp only [decide_eq_false hlt, Bool.false_or, hu, Bool.false_eq_true, if_false]

theorem interceptingTransition_slow (q : Player) (c : Ctx) (now : ℝ)
    (hs : ¬ q.staminaCurrent < STAMINA_CRITICAL)
    (hb : ballSpeedOf c.ball < 50) :
    shouldTransition PState.INTERCEPTING q c now = some PState.PRESSING := by
  simp only [shouldTransition, interceptingShouldTransition]
  rw [if_neg hs, if_pos hb]

theorem c4_ballSpeed : ballSpeedOf c4ctx.ball < 50 := by
  have h : ballSpeedOf stillBall = 0 := by
    norm_num [ballSpeedOf, stillBall]
  rw [show c4ctx.ball = stillBall from rfl, h]
  norm_num

theorem c4_hst_step1 :
    shouldTransition c4p0.state { c4p0 with lastDecisionTime := 200 } c4ctx 200 =
      some PState.PRESSING := by
  rw [show c4p0.state = PState.INTERCEPTING from rfl]
  exact interceptingTransition_slow _ _ _
    (by norm_num [c4p0, basePlayer, mkStats, STAMINA_CRITICAL]) c4_ballSpeed

theorem c4_rt_step1 :
    calculateReactionTime { c4p0 with lastDecisionTime := 200 } 0 = 240 := by
  norm_num [calculateReactionTime, clamp, lerp, c4p0, basePlayer, mkStats,
    REACTION_TIME_MIN, REACTION_TIME_MAX, min_def, max_def]

/-- C4 (amended): when `shouldTransition` proposes a new non-urgent state,
the agent's state is unchanged that tick and the reaction timer is armed with
the computed delay; that delay is always at least 100 ms (it lies in
[200, 400] ms), and on NO tick is a non-urgent transition ever applied — a
decision tick either leaves the state unchanged or enters an urgent state
(`INTERCEPTING` or `RECOVERING`), because once the timer lapses the check is
re-run and a fresh always-too-long delay is armed again. -/
theorem c4_reaction_delay (p : Player) (c : Ctx) (t : DecisionTick) (ns : PState)
    (h1 : ¬ t.now - p.lastDecisionTime < DECISION_INTERVAL)
    (h2 : ¬ p.reactionTimer > 0)
    (hst : shouldTransition p.state { p with lastDecisionTime := t.now } c t.now = some ns)
    (hu : isUrgentState ns = false) :
    (updatePlayerState p c t).state = p.state ∧
    (updatePlayerState p c t).reactionTimer =
      calculateReactionTime { p with lastDecisionTime := t.now } t.noise ∧
    100 ≤ calculateReactionTime { p with lastDecisionTime := t.now } t.noise ∧
    (∀ (q : Player) (cq : Ctx) (tq : DecisionTick),
      (updatePlayerState q cq tq).state = q.state ∨
        isUrgentState (updatePlayerState q cq tq).state = true) := by
  have hge := (calculateReactionTime_mem { p with lastDecisionTime := t.now } t.noise).1
  rw [updatePlayerState_deferred p c t ns h1 h2 hst hu]
  refine ⟨by rfl, by rfl, ?_, ?_⟩
  · simp only [REACTION_TIME_MIN] at hge
    linarith
  · intro q cq tq
    rcases updatePlayerState_state q cq tq with h | h | h
    · exact Or.inl h
    · exact Or.inr (by rw [h]; rfl)
    · exact Or.inr (by rw [h]; rfl)

/-- Witness for C4's amended statement: the intercepting agent over a
stationary ball at decision time 200 ms. -/
theorem c4_reaction_delay_witness :
    ¬ ((⟨200, 0⟩ : DecisionTick).now - c4p0.lastDecisionTime < DECISION_INTERVAL) ∧
    ¬ c4p0.reactionTimer > 0 ∧
    shouldTransition c4p0.state { c4p0 with lastDecisionTime := 200 } c4ctx 200 =
      some PState.PRESSING ∧
    isUrgentState PState.PRESSING = false ∧
    (updatePlayerState c4p0 c4ctx ⟨200, 0⟩).state = c4p0.state := by
  have h1 : ¬ ((⟨200, 0⟩ : DecisionTick).now - c4p0.lastDecisionTime < DECISION_INTERVAL) := by
    norm_num [c4p0, basePlayer, DECISION_INTERVAL]
  have h2 : ¬ c4p0.reactionTimer > 0 := by norm_num [c4p0, basePlayer]
  exact ⟨h1, h2, c4_hst_step1, rfl,
    (c4_reaction_delay c4p0 c4ctx ⟨200, 0⟩ PState.PRESSING h1 h2 c4_hst_step1 rfl).1⟩

/-- Counterexample to C4 as stated: in the concrete scenario the non-urgent
transition to `PRESSING` is proposed at t = 200 ms with a 240 ms delay, the
reaction timer lapses by t = 600 ms, yet the transition is still not applied
on that later tick — the agent remains `INTERCEPTING`. -/
theorem c4_reaction_delay_counterexample :
    shouldTransition c4p0.state { c4p0 with lastDecisionTime := 200 } c4ctx 200 =
      some PState.PRESSING ∧
    isUrgentState PState.PRESSING = false ∧
    100 ≤ c4p1.reactionTimer ∧
    c4p1.state = PState.INTERCEPTING ∧
    c4p2.state = PState.INTERCEPTING ∧
    (playerTimersUpdate c4p2 200).reactionTimer ≤ 0 ∧
    c4p3.state = PState.INTERCEPTING ∧
    c4p3.state ≠ PState.PRESSING := by
  have e0 : playerTimersUpdate c4p0 200 = c4p0 := by
    norm_num [playerTimersUpdate, c4p0, basePlayer]
  have e1 : c4p1 = { c4p0 with lastDecisionTime := 200, reactionTimer := 240 } := by
    simp only [c4p1, c4step]
    rw [e0]
    rw [updatePlayerState_deferred c4p0 c4ctx ⟨200, 0⟩ PState.PRESSING
      (by norm_num [c4p0, basePlayer, DECISION_INTERVAL])
      (by norm_num [c4p0, basePlayer]) c4_hst_step1 rfl]
    simp [c4_rt_step1]
  have e2 : playerTimersUpdate c4p1 200 =
      { c4p0 with lastDecisionTime := 200, reactionTimer := 40 } := by
    rw [e1]
    norm_num [playerTimersUpdate, c4p0, basePlayer]
  have e3 : c4p2 = { c4p0 with lastDecisionTime := 200, reactionTimer := 40 } := by
    simp only [c4p2, c4step]
    rw [e2]
    exact updatePlayerState_skip2 _ c4ctx ⟨400, 0⟩
      (by norm_num [DECISION_INTERVAL]) (by norm_num)
  have e4 : playerTimersUpdate c4p2 200 =
      { c4p0 with lastDecisionTime := 200, reactionTimer := -160 } := by
    rw [e3]
    norm_num [playerTimersUpdate, c4p0, basePlayer]
  have hst3 : shouldTransition
      ({ c4p0 with lastDecisionTime := 200, reactionTimer := (-160 : ℝ) } : Player).state
      { { c4p0 with lastDecisionTime := 200, reactionTimer := (-160 : ℝ) } with
        lastDecisionTime := 600 } c4ctx 600 = some PState.PRESSING := by
    rw [show ({ c4p0 with lastDecisionTime := 200, reactionTimer := (-160 : ℝ) } : Player).state = PState.INTERCEPTING from rfl]
    exact interceptingTransition_slow _ _ _
      (by norm_num [c4p0, basePlayer, mkStats, STAMINA_CRITICAL]) c4_ballSpeed
  have e5state : c4p3.state = PState.INTERCEPTING := by
    simp only [c4p3, c4step]
    rw [e4]
    rw [updatePlayerState_deferred _ c4ctx ⟨600, 0⟩ PState.PRESSING
      (by norm_num [DECISION_INTERVAL]) (by norm_num) hst3 rfl]
    rfl
  refine ⟨c4_hst_step1, rfl, ?_, ?_, ?_, ?_, e5state, ?_⟩
  · rw [e1]
    norm_num
  · rw [e1]
    rfl
  · rw [e3]
    rfl
  · rw [e4]
    norm_num
  · rw [e5state]
    simp

end

end FT
